import Mathlib

/-!
# Chisel: viewport controller and selection iteration

A shallow embedding of `src/gui/View3D.h` and `src/chisel/Selection.h`.

Floating point values are taken as exact numbers of an ordered field with a
floor function (`ℚ` for concrete evaluation, `ℝ` as an instance of every
general theorem).  Unsigned 32 bit integers are natural numbers reduced
modulo `2 ^ 32` where the code can overflow.
-/

namespace Chisel

/-! ## Angle helpers (View3D.h, lines 23 to 43) -/

section Angles

variable {α : Type} [LinearOrderedField α] [FloorRing α]

/-- Rounding toward zero, the integer quotient that `fmodf` removes. -/
def truncToInt (q : α) : ℤ :=
  if 0 ≤ q then ⌊q⌋ else ⌈q⌉

/-- The C library `fmodf`: the remainder of `x / y` with the quotient rounded
toward zero, so the result keeps the sign of `x`.  Used only with `y = 360`. -/
def fmodf (x y : α) : α :=
  x - y * (truncToInt (x / y) : α)

/-- The constant `CHISEL_PI = 3.14159265358979323846f`, as the decimal number
written in the source.  The theorems below use only that it is positive. -/
def CHISEL_PI : α := 314159265358979323846 / 100000000000000000000

/-- The function `DegreesToRadians`: `inV * (CHISEL_PI / 180.0f)`. -/
def DegreesToRadians (inV : α) : α :=
  inV * (CHISEL_PI / 180)

/-- The function `RadiansToDegrees`: `inV * (180.0f / CHISEL_PI)`. -/
def RadiansToDegrees (inV : α) : α :=
  inV * (180 / CHISEL_PI)

/-- The function `AngleNormalize` of View3D.h:
```
angle = fmodf(angle, 360.0f);
if (angle > +180) { angle -= 360; }
if (angle < -180) { angle += 360; }
return angle;
``` -/
def AngleNormalize (angle : α) : α :=
  let angle := fmodf angle 360
  let angle := if angle > 180 then angle - 360 else angle
  let angle := if angle < -180 then angle + 360 else angle
  angle

end Angles

/-! ## Data model of the viewport controller (View3D.h, lines 45 to 87) -/

/-- The enum `Handles::Tool`, with the four values the toolbar offers. -/
inductive Tool where
  | Translate
  | Rotate
  | Scale
  | Universal
  deriving DecidableEq

/-- The enum `Space`: `Space(0)` is World and `Space(1)` is Local, the order of
the items of `CoordinateSpacePicker`. -/
inductive Space where
  | World
  | Local
  deriving DecidableEq

/-- The enum `View3D::DrawMode`: `DrawMode(0)` is Shaded, `DrawMode(1)` is Depth. -/
inductive DrawMode where
  | Shaded
  | Depth
  deriving DecidableEq

/-- The cursor modes used by `Cursor.SetMode`. -/
inductive CursorMode where
  | Normal
  | Locked
  deriving DecidableEq

/-- A `vec3`. -/
structure Vec3 (α : Type) where
  x : α
  y : α
  z : α
  deriving DecidableEq

/-- The sum of two `vec3`, componentwise. -/
def Vec3.add {α : Type} [Add α] (a b : Vec3 α) : Vec3 α :=
  ⟨a.x + b.x, a.y + b.y, a.z + b.z⟩

/-- The product `vec3 * float`, componentwise. -/
def Vec3.scale {α : Type} [Mul α] (a : Vec3 α) (k : α) : Vec3 α :=
  ⟨a.x * k, a.y * k, a.z * k⟩

/-- The swizzle `gridSize.xxx`. -/
def Vec3.xxx {α : Type} (a : Vec3 α) : Vec3 α :=
  ⟨a.x, a.x, a.x⟩

/-- A `Rect(x, y, w, h)`. -/
structure Rect (α : Type) where
  x : α
  y : α
  w : α
  h : α
  deriving DecidableEq

/-- The fields of `Camera` that `View3D::Draw` reads and writes. -/
structure Camera (α : Type) where
  position : Vec3 α
  yaw : α
  pitch : α
  fieldOfView : α
  rightHanded : Bool
  deriving DecidableEq

/-- The state of the `Cursor` singleton that `Draw` writes. -/
structure CursorState where
  mode : CursorMode
  visible : Bool
  deriving DecidableEq

/-- The console variables declared at lines 47 to 54, with their current values. -/
structure ConVars (α : Type) where
  sensitivity : α
  sv_maxspeed : α
  cl_pitchup : α
  cl_pitchdown : α
  m_pitch : α
  m_yaw : α
  deriving DecidableEq

/-- The controller state: the data members of `View3D`, and the `width` and
`height` it inherits from `GUI::Window` (unsigned integers). -/
structure View3D (α : Type) where
  activeTool : Tool
  space : Space
  viewport : Rect α
  allowAxisFlip : Bool
  showGrid : Bool
  gridSnap : Bool
  gridSize : Vec3 α
  gridUniform : Bool
  popupOpen : Bool
  drawMode : DrawMode
  width : ℕ
  height : ℕ
  deriving DecidableEq

/-- Everything a frame of `View3D::Draw` can read or write: the controller, the
editor camera, the cursor, the console variables, the function-local static
`showingGrid` of `GridMenu`, and the logs of the calls made to
`Tools.PickObject` and `Tools.ResizeViewport` (latest call last). -/
structure World (α : Type) where
  view : View3D α
  camera : Camera α
  cursor : CursorState
  cvars : ConVars α
  showingGrid : Bool
  picks : List (ℕ × ℕ)
  resizes : List (ℕ × ℕ)
  deriving DecidableEq

/-- What `ImGui::BeginMenu` and the `ImGui::IsWindowHovered` that follows it
return for one menu in this frame. -/
structure MenuIn where
  isOpen : Bool := false
  hovered : Bool := false

/-- What `ImGui::Button` and `ImGui::IsItemHovered` return for one toolbar button. -/
structure ButtonIn where
  clicked : Bool := false
  hovered : Bool := false

/-- The answers of the collaborators (ImGui, Mouse, Keyboard, Selection, Handles,
Time) to the calls `View3D::Draw` makes in one frame, in the order of the calls.
The field `avail` is what `ImGui::GetContentRegionAvail` returns, in `CheckResize`
and again at line 207 (no item is submitted between the two calls), and
`mouseHoveringRect` is what `ImGui::IsMouseHoveringRect(pos, max)` returns for the
viewport rectangle of this frame. -/
structure Frame (α : Type) [Zero α] where
  beginMenuBar : Bool := false
  spaceMenu : MenuIn := {}
  spaceItemWorld : Bool := false
  spaceItemLocal : Bool := false
  axisFlipClick : Bool := false
  gridMenu : MenuIn := {}
  showGridClick : Bool := false
  gridSnapClick : Bool := false
  gridUniformClick : Bool := false
  gridSizeInput : Option α := none
  gridSize3Input : Option (Vec3 α) := none
  drawMenu : MenuIn := {}
  drawItemShaded : Bool := false
  drawItemDepth : Bool := false
  cameraMenu : MenuIn := {}
  fovInput : Option α := none
  speedInput : Option α := none
  sensitivityInput : Option α := none
  avail : α × α := (0, 0)
  cursorScreenPos : α × α := (0, 0)
  btnTranslate : ButtonIn := {}
  btnRotate : ButtonIn := {}
  btnScale : ButtonIn := {}
  btnUniversal : ButtonIn := {}
  mouseHoveringRect : Bool := false
  leftDown : Bool := false
  selectionEmpty : Bool := true
  handlesMouseOver : Bool := false
  mousePos : α × α := (0, 0)
  keyCtrl : Bool := false
  windowHovered : Bool := false
  rightDown : Bool := false
  keyZDown : Bool := false
  rightHeld : Bool := false
  keyZHeld : Bool := false
  motion : ℤ × ℤ := (0, 0)
  rightUp : Bool := false
  keyZUp : Bool := false
  keyW : Bool := false
  keyS : Bool := false
  keyA : Bool := false
  keyD : Bool := false
  deltaTime : α := 0

/-! ## The operations of the viewport controller -/

section Controller

variable {α : Type} [LinearOrderedField α] [FloorRing α]

/-- The conversion `uint(x)` of a float: the fraction is dropped and the result
is an unsigned 32 bit integer.  C++ defines it only for `x` in `[0, 2 ^ 32)`;
outside that range the model returns the truncated value clipped at zero and
reduced modulo `2 ^ 32`. -/
def toUint (x : α) : ℕ :=
  (truncToInt x).toNat % 4294967296

/-- The function `std::clamp(v, lo, hi)`: `(v < lo) ? lo : (hi < v) ? hi : v`.
The C++ standard defines the result only for `lo ≤ hi`; for `hi < lo` the model
follows this expression. -/
def clamp (v lo hi : α) : α :=
  if v < lo then lo else if hi < v then hi else v

/-- An `ImGui::Checkbox` bound to a flag: a click flips the flag. -/
def checkbox (click : Bool) (v : Bool) : Bool :=
  if click then !v else v

/-- An `ImGui::InputFloat` bound to a value: an edit stores the entered value. -/
def inputFloat (edit : Option α) (v : α) : α :=
  match edit with
  | some x => x
  | none => v

/-- The method `View3D::BeginMenu`: a menu that is open while its window is
hovered sets `popupOpen`; the result is whether the menu is open. -/
def BeginMenu (m : MenuIn) (v : View3D α) : View3D α × Bool :=
  let v := if m.isOpen && m.hovered then { v with popupOpen := true } else v
  (v, m.isOpen)

/-- The method `View3D::CoordinateSpacePicker` (lines 298 to 315). -/
def CoordinateSpacePicker (f : Frame α) (v : View3D α) : View3D α :=
  match BeginMenu f.spaceMenu v with
  | (v, true) =>
    let v := if f.spaceItemWorld then { v with space := Space.World } else v
    let v := if f.spaceItemLocal then { v with space := Space.Local } else v
    { v with allowAxisFlip := checkbox f.axisFlipClick v.allowAxisFlip }
  | (v, false) => v

/-- The method `View3D::GridMenu` (lines 319 to 350). -/
def GridMenu (f : Frame α) (w : World α) : World α :=
  match BeginMenu f.gridMenu w.view with
  | (v, true) =>
    let v := { v with showGrid := checkbox f.showGridClick v.showGrid }
    let v := { v with gridSnap := checkbox f.gridSnapClick v.gridSnap }
    let v := { v with gridUniform := checkbox f.gridUniformClick v.gridUniform }
    let v :=
      if v.gridUniform then
        match f.gridSizeInput with
        | some x => { v with gridSize := Vec3.xxx { v.gridSize with x := x } }
        | none => v
      else
        match f.gridSize3Input with
        | some g => { v with gridSize := g }
        | none => v
    { w with view := v }
  | (v, false) => { w with view := v, showingGrid := v.showGrid }

/-- The draw mode menu of `Draw` (lines 176 to 184). -/
def DrawModeMenu (f : Frame α) (v : View3D α) : View3D α :=
  match BeginMenu f.drawMenu v with
  | (v, true) =>
    let v := if f.drawItemShaded then { v with drawMode := DrawMode.Shaded } else v
    let v := if f.drawItemDepth then { v with drawMode := DrawMode.Depth } else v
    v
  | (v, false) => v

/-- The scene camera menu of `Draw` (lines 188 to 196). -/
def CameraMenu (f : Frame α) (w : World α) : World α :=
  match BeginMenu f.cameraMenu w.view with
  | (v, true) =>
    { w with
      view := v
      camera := { w.camera with fieldOfView := inputFloat f.fovInput w.camera.fieldOfView }
      cvars := { w.cvars with
        sv_maxspeed := inputFloat f.speedInput w.cvars.sv_maxspeed
        sensitivity := inputFloat f.sensitivityInput w.cvars.sensitivity } }
  | (v, false) => { w with view := v }

/-- The menu bar of `Draw` (lines 168 to 198). -/
def MenuBar (f : Frame α) (w : World α) : World α :=
  if f.beginMenuBar then
    let w := { w with view := CoordinateSpacePicker f w.view }
    let w := GridMenu f w
    let w := { w with view := DrawModeMenu f w.view }
    let w := CameraMenu f w
    w
  else w

/-- The method `View3D::CheckResize` (lines 273 to 294); `size` is what
`ImGui::GetContentRegionAvail` returns.  The result is false when the window
is taken as collapsed. -/
def CheckResize (size : α × α) (w : World α) : World α × Bool :=
  if size.1 ≠ (w.view.width : α) ∨ size.2 ≠ (w.view.height : α) then
    if size.1 = 0 ∨ size.2 = 0 then
      (w, false)
    else
      let width := toUint size.1
      let height := toUint size.2
      ({ w with
          view := { w.view with width := width, height := height }
          resizes := w.resizes ++ [(width, height)] }, true)
  else
    (w, true)

/-- The method `View3D::ToolbarButton` (lines 367 to 382). -/
def ToolbarButton (b : ButtonIn) (tool : Tool) (v : View3D α) : View3D α :=
  let v := if b.clicked then { v with activeTool := tool } else v
  let v := if b.hovered then { v with popupOpen := true } else v
  v

/-- The method `View3D::Toolbar` (lines 354 to 365). -/
def Toolbar (f : Frame α) (v : View3D α) : View3D α :=
  let v := ToolbarButton f.btnTranslate Tool.Translate v
  let v := ToolbarButton f.btnRotate Tool.Rotate v
  let v := ToolbarButton f.btnScale Tool.Scale v
  let v := ToolbarButton f.btnUniversal Tool.Universal v
  v

/-- The left click of `Draw` (lines 227 to 232): a call of `Tools.PickObject`
at the pointer position relative to the viewport. -/
def PickStep (f : Frame α) (w : World α) : World α :=
  if f.leftDown && !w.view.popupOpen && (f.selectionEmpty || !f.handlesMouseOver) then
    { w with picks := w.picks ++
        [(toUint (f.mousePos.1 - f.cursorScreenPos.1), toUint (f.mousePos.2 - f.cursorScreenPos.2))] }
  else w

/-- The mouse look update of `Draw` (lines 246 to 251) on the camera. -/
def MouseLook (motion : ℤ × ℤ) (cv : ConVars α) (camera : Camera α) : Camera α :=
  let mx : ℤ := if camera.rightHanded then -motion.1 else motion.1
  let my : ℤ := motion.2
  let camera := { camera with
    yaw := AngleNormalize (camera.yaw + DegreesToRadians ((mx : α) * cv.sensitivity * cv.m_yaw)) }
  { camera with
    pitch := clamp (camera.pitch - DegreesToRadians ((my : α) * cv.sensitivity * cv.m_pitch))
      (DegreesToRadians cv.cl_pitchdown) (DegreesToRadians cv.cl_pitchup) }

/-- The value `1.f` for a held key and `0.f` otherwise. -/
def keyAxis (held : Bool) : α :=
  if held then 1 else 0

/-- The camera navigation of `Draw` (lines 234 to 268).  The functions `forward`
and `right` stand for `Camera::forward()` and `Camera::right()`. -/
def CameraStep (forward right : Camera α → Vec3 α) (f : Frame α) (w : World α) : World α :=
  if !f.keyCtrl && f.windowHovered then
    let w := if f.rightDown || f.keyZDown then
        { w with cursor := { mode := CursorMode.Locked, visible := false } }
      else w
    let w := if f.rightHeld || f.keyZHeld then
        { w with camera := MouseLook f.motion w.cvars w.camera }
      else w
    let w := if f.rightUp || f.keyZUp then
        { w with cursor := { mode := CursorMode.Normal, visible := true } }
      else w
    let kw : α := keyAxis f.keyW
    let ks : α := keyAxis f.keyS
    let ka : α := keyAxis f.keyA
    let kd : α := keyAxis f.keyD
    let camera := w.camera
    let stepForward := (((forward camera).scale (kw - ks)).scale w.cvars.sv_maxspeed).scale f.deltaTime
    let camera := { camera with position := Vec3.add camera.position stepForward }
    let stepRight := (((right camera).scale (kd - ka)).scale w.cvars.sv_maxspeed).scale f.deltaTime
    let camera := { camera with position := Vec3.add camera.position stepRight }
    { w with camera := camera }
  else w

/-- The first part of `View3D::Draw` after the resize check (lines 206 to 219):
the viewport rectangle of this frame is recorded and the toolbar runs.  Calls
that only draw (`AddImage`, `Spacing`, `Indent`) touch none of the modelled
state and are left out. -/
def Presented (f : Frame α) (w : World α) : World α :=
  let pos := f.cursorScreenPos
  let size := f.avail
  let w := { w with view := { w.view with viewport := ⟨pos.1, pos.2, size.1, size.2⟩ } }
  { w with view := Toolbar f w.view }

/-- The part of `View3D::Draw` after the resize check (lines 206 to 269): after
the presentation and the toolbar, when the pointer hovers the viewport rectangle
the left click and the camera navigation are handled. -/
def Interact (forward right : Camera α → Vec3 α) (f : Frame α) (w : World α) : World α :=
  let w := Presented f w
  if f.mouseHoveringRect then
    let w := PickStep f w
    CameraStep forward right f w
  else w

/-- The state in which `Draw` reaches its resize check (lines 164 to 199):
`popupOpen` is reset and the menu bar has run. -/
def BeforeResize (f : Frame α) (w : World α) : World α :=
  let w := { w with view := { w.view with popupOpen := false } }
  MenuBar f w

/-- The method `View3D::Draw` (lines 162 to 270).  Calls that only draw (style
pushes and pops, `SameLine`, `TextUnformatted`) are left out. -/
def Draw (forward right : Camera α → Vec3 α) (f : Frame α) (w : World α) : World α :=
  let w := BeforeResize f w
  match CheckResize f.avail w with
  | (w, false) => w
  | (w, true) => Interact forward right f w

/-- The parts of the controller that no menu of the menu bar writes. -/
structure ViewKept (v v' : View3D α) : Prop where
  width : v'.width = v.width
  height : v'.height = v.height
  viewport : v'.viewport = v.viewport
  activeTool : v'.activeTool = v.activeTool

/-- The parts of the world that the menu bar leaves as they are. -/
structure WorldKept (w w' : World α) : Prop where
  view : ViewKept w.view w'.view
  yaw : w'.camera.yaw = w.camera.yaw
  pitch : w'.camera.pitch = w.camera.pitch
  position : w'.camera.position = w.camera.position
  rightHanded : w'.camera.rightHanded = w.camera.rightHanded
  cursor : w'.cursor = w.cursor
  picks : w'.picks = w.picks
  resizes : w'.resizes = w.resizes
  pitchdown : w'.cvars.cl_pitchdown = w.cvars.cl_pitchdown
  pitchup : w'.cvars.cl_pitchup = w.cvars.cl_pitchup

end Controller

/-! ## Concrete worlds and frames -/

/-- A world with the initial values the source gives to the members of `View3D`
and to the console variables, a camera at the origin looking along yaw 0 and
pitch 0, a visible cursor, and the given stored `width` and `height`. -/
def sampleWorld (width height : ℕ) : World ℚ where
  view :=
    { activeTool := Tool.Translate
      space := Space.World
      viewport := ⟨0, 0, 0, 0⟩
      allowAxisFlip := true
      showGrid := true
      gridSnap := true
      gridSize := ⟨64, 64, 64⟩
      gridUniform := true
      popupOpen := false
      drawMode := DrawMode.Shaded
      width := width
      height := height }
  camera := { position := ⟨0, 0, 0⟩, yaw := 0, pitch := 0, fieldOfView := 90, rightHanded := true }
  cursor := { mode := CursorMode.Normal, visible := true }
  cvars :=
    { sensitivity := 6
      sv_maxspeed := 700
      cl_pitchup := 89
      cl_pitchdown := -89
      m_pitch := 22 / 1000
      m_yaw := 22 / 1000 }
  showingGrid := true
  picks := []
  resizes := []

/-- A camera axis that points along x whatever the camera is. -/
def axisX (_ : Camera ℚ) : Vec3 ℚ := ⟨1, 0, 0⟩

/-- A camera axis that points along y whatever the camera is. -/
def axisY (_ : Camera ℚ) : Vec3 ℚ := ⟨0, 1, 0⟩

/-- The sample world left by a frame that hovered a toolbar button. -/
def hoveredWorld : World ℚ :=
  { sampleWorld 512 512 with view := { (sampleWorld 512 512).view with popupOpen := true } }

/-- A frame of a collapsed window: no menu bar, available area `(0, 0)`. -/
def collapsedFrame : Frame ℚ := { avail := (0, 0) }

/-- A frame with a zero-sized area in which the draw mode menu is open and its
Depth item is clicked. -/
def zeroAreaMenuFrame : Frame ℚ :=
  { beginMenuBar := true, drawMenu := { isOpen := true }, drawItemDepth := true, avail := (0, 0) }

/-- A frame with available area `(0, 0)` in which the pointer hovers the viewport
rectangle, the left button goes down, and the right button is held while the
mouse moves by `(0, 10)`. -/
def zeroAreaClickFrame : Frame ℚ :=
  { avail := (0, 0), mouseHoveringRect := true, leftDown := true, windowHovered := true,
    rightHeld := true, motion := (0, 10) }

/-- A frame of a 512 by 512 viewport in which the pointer hovers the Translate
toolbar button (inside the viewport rectangle), the right button goes down and
is held, and the mouse moves by `(0, 10)`. -/
def toolbarHoverLookFrame : Frame ℚ :=
  { avail := (512, 512), btnTranslate := { hovered := true }, mouseHoveringRect := true,
    windowHovered := true, rightDown := true, rightHeld := true, motion := (0, 10) }

/-- A frame of a 512 by 512 viewport in which the right button is held while the
pointer hovers the viewport. -/
def lookFrame : Frame ℚ :=
  { avail := (512, 512), mouseHoveringRect := true, windowHovered := true, rightHeld := true }

/-- A frame of a 512 by 512 viewport in which the left button goes down inside
the viewport at `(40, 30)` while nothing is selected. -/
def clickFrame : Frame ℚ :=
  { avail := (512, 512), mouseHoveringRect := true, leftDown := true, mousePos := (40, 30) }

/-- The sample world with the pitch limits swapped: `cl_pitchdown` is 89 and
`cl_pitchup` is -89. -/
def swappedPitchWorld : World ℚ :=
  { sampleWorld 512 512 with
    cvars := { (sampleWorld 512 512).cvars with cl_pitchdown := 89, cl_pitchup := -89 } }

/-! ## Selection (Selection.h) -/

/-- A `Selectable*`, as the address of the object. -/
abbrev SelectablePtr := ℕ

/-- The class `Selection`: the vector `m_selection`. -/
structure Selection where
  m_selection : List SelectablePtr
  deriving DecidableEq

/-- A `Selectable**` as `begin()` and `end()` return it: `nullptr`, or the address
of slot `i` of the buffer of `m_selection` (slot `size` is one past the last). -/
inductive SlotPtr where
  | null
  | slot (i : ℕ)
  deriving DecidableEq

/-- The method `Selection::begin`: `size() > 0 ? &m_selection.front() : nullptr`. -/
def Selection.begin (s : Selection) : SlotPtr :=
  if s.m_selection.length > 0 then SlotPtr.slot 0 else SlotPtr.null

/-- The method `Selection::end`: `size() > 0 ? &m_selection.back() + 1 : nullptr`. -/
def Selection.end_ (s : Selection) : SlotPtr :=
  if s.m_selection.length > 0 then SlotPtr.slot (s.m_selection.length - 1 + 1) else SlotPtr.null

/-- A range-for loop `for (it = first; it != last; ++it) visit(*it)` over the
buffer of `m_selection`, with the members visited so far left out of the result
of the recursive call.  The result is `none` when the fuel runs out, or when the
loop reads through `nullptr` or outside the buffer. -/
def Selection.iterate (s : Selection) : ℕ → SlotPtr → SlotPtr → Option (List SelectablePtr)
  | fuel, it, last =>
    if it = last then some []
    else
      match fuel, it with
      | 0, _ => none
      | _ + 1, SlotPtr.null => none
      | n + 1, SlotPtr.slot i =>
        match s.m_selection.get? i with
        | none => none
        | some p => (s.iterate n (SlotPtr.slot (i + 1)) last).map (fun rest => p :: rest)

/-- The identifiers a `Selectable` can carry: `SelectionID = uint32_t`. -/
abbrev SelectionID := ℕ

/-- The static members of `Selectable`: the counter `s_lastId` and the map
`s_map` from identifier to object. -/
structure Registry where
  s_lastId : SelectionID
  s_map : SelectionID → Option SelectablePtr

/-- The registry at program start: no identifier handed out, nothing registered. -/
def Registry.initial : Registry :=
  ⟨0, fun _ => none⟩

/-- Modelled from the spec: the constructor `Selectable::Selectable()`, declared in
Selection.h and defined in a source file that is not under src.  It "assigns the
next counter value (starting at 1; 0 reserved as invalid/none) and inserts into
the map"; the counter is the `uint32_t` static `s_lastId` of the header, so the
next value is taken modulo `2 ^ 32`, and the insertion keeps an entry that is
already present, as `std::unordered_map::emplace` does. -/
def Registry.Register (r : Registry) (obj : SelectablePtr) : Registry × SelectionID :=
  let id := (r.s_lastId + 1) % 4294967296
  let m := fun k => if k = id then (match r.s_map k with | some o => some o | none => some obj) else r.s_map k
  (⟨id, m⟩, id)

/-- The identifiers assigned to a sequence of constructions, in construction order. -/
def Registry.registerAll (r : Registry) : List SelectablePtr → List SelectionID
  | [] => []
  | obj :: rest => (r.Register obj).2 :: (r.Register obj).1.registerAll rest

/-! ## Lemmas on the angle helpers -/

section AngleLemmas

variable {α : Type} [LinearOrderedField α] [FloorRing α]

theorem truncToInt_nonneg_bounds (q : α) (h : 0 ≤ q) :
    (truncToInt q : α) ≤ q ∧ q < (truncToInt q : α) + 1 := by
  unfold truncToInt
  rw [if_pos h]
  exact ⟨Int.floor_le q, Int.lt_floor_add_one q⟩

theorem truncToInt_neg_bounds (q : α) (h : ¬ 0 ≤ q) :
    q ≤ (truncToInt q : α) ∧ (truncToInt q : α) < q + 1 := by
  unfold truncToInt
  rw [if_neg h]
  exact ⟨Int.le_ceil q, Int.ceil_lt_add_one q⟩

/-- The remainder `fmodf x 360` is within one turn of zero and has the sign of `x`. -/
theorem fmodf_360_bounds (x : α) :
    (0 ≤ x → 0 ≤ fmodf x 360 ∧ fmodf x 360 < 360) ∧
    (x < 0 → -360 < fmodf x 360 ∧ fmodf x 360 ≤ 0) := by
  have h360 : (0 : α) < 360 := by norm_num
  have hx : x = 360 * (x / 360) := by field_simp
  constructor
  · intro h0
    have hq : 0 ≤ x / 360 := div_nonneg h0 h360.le
    obtain ⟨h1, h2⟩ := truncToInt_nonneg_bounds (x / 360) hq
    unfold fmodf
    constructor <;> nlinarith
  · intro h0
    have hq : ¬ 0 ≤ x / 360 := not_le.mpr (div_neg_of_neg_of_pos h0 h360)
    obtain ⟨h1, h2⟩ := truncToInt_neg_bounds (x / 360) hq
    unfold fmodf
    constructor <;> nlinarith

theorem fmodf_360_abs (x : α) : -360 < fmodf x 360 ∧ fmodf x 360 < 360 := by
  obtain ⟨hp, hn⟩ := fmodf_360_bounds x
  rcases le_or_lt 0 x with h | h
  · obtain ⟨h1, h2⟩ := hp h
    exact ⟨by linarith, h2⟩
  · obtain ⟨h1, h2⟩ := hn h
    exact ⟨h1, by linarith⟩

/-- Inside one turn the quotient rounds to zero and `fmodf` returns its argument. -/
theorem fmodf_360_of_small (x : α) (h1 : -360 < x) (h2 : x < 360) : fmodf x 360 = x := by
  have h360 : (0 : α) < 360 := by norm_num
  have ht : truncToInt (x / 360) = 0 := by
    unfold truncToInt
    split_ifs with hq
    · rw [Int.floor_eq_iff]
      refine ⟨by simpa using hq, ?_⟩
      rw [div_lt_iff₀ h360]
      simpa using h2
    · rw [Int.ceil_eq_iff]
      push_neg at hq
      refine ⟨?_, by simpa using hq.le⟩
      rw [lt_div_iff₀ h360]
      simp only [Int.cast_zero, zero_sub]
      linarith
  unfold fmodf
  rw [ht]
  simp

end AngleLemmas

/-! ## What the menus leave unchanged -/

section KeptBasics

variable {α : Type}

theorem viewKept_refl (v : View3D α) : ViewKept v v := ⟨rfl, rfl, rfl, rfl⟩

theorem viewKept_trans {a b c : View3D α} (h1 : ViewKept a b) (h2 : ViewKept b c) : ViewKept a c :=
  ⟨h2.width.trans h1.width, h2.height.trans h1.height, h2.viewport.trans h1.viewport,
    h2.activeTool.trans h1.activeTool⟩

theorem worldKept_refl (w : World α) : WorldKept w w :=
  ⟨viewKept_refl _, rfl, rfl, rfl, rfl, rfl, rfl, rfl, rfl, rfl⟩

theorem worldKept_trans {a b c : World α} (h1 : WorldKept a b) (h2 : WorldKept b c) :
    WorldKept a c :=
  ⟨viewKept_trans h1.view h2.view, h2.yaw.trans h1.yaw, h2.pitch.trans h1.pitch,
    h2.position.trans h1.position, h2.rightHanded.trans h1.rightHanded,
    h2.cursor.trans h1.cursor, h2.picks.trans h1.picks, h2.resizes.trans h1.resizes,
    h2.pitchdown.trans h1.pitchdown, h2.pitchup.trans h1.pitchup⟩

theorem worldKept_of_view (w : World α) (v : View3D α) (h : ViewKept w.view v) :
    WorldKept w { w with view := v } :=
  ⟨h, rfl, rfl, rfl, rfl, rfl, rfl, rfl, rfl, rfl⟩

theorem BeginMenu_kept (m : MenuIn) (v : View3D α) : ViewKept v (BeginMenu m v).1 := by
  unfold BeginMenu
  split_ifs <;> exact ⟨rfl, rfl, rfl, rfl⟩

theorem ToolbarButton_kept (b : ButtonIn) (tool : Tool) (v : View3D α) :
    (ToolbarButton b tool v).width = v.width ∧ (ToolbarButton b tool v).height = v.height ∧
    (ToolbarButton b tool v).viewport = v.viewport := by
  unfold ToolbarButton
  split_ifs <;> exact ⟨rfl, rfl, rfl⟩

end KeptBasics

section Menus

variable {α : Type} [LinearOrderedField α]

theorem clamp_mem (v lo hi : α) (h : lo ≤ hi) : lo ≤ clamp v lo hi ∧ clamp v lo hi ≤ hi := by
  unfold clamp
  split_ifs with h1 h2
  · exact ⟨le_refl _, h⟩
  · exact ⟨h, le_refl _⟩
  · exact ⟨not_lt.mp h1, not_lt.mp h2⟩

theorem CoordinateSpacePicker_kept (f : Frame α) (v : View3D α) :
    ViewKept v (CoordinateSpacePicker f v) := by
  have hb := BeginMenu_kept f.spaceMenu v
  unfold CoordinateSpacePicker
  split
  · next v1 heq =>
    have : v1 = (BeginMenu f.spaceMenu v).1 := by rw [heq]
    subst this
    refine viewKept_trans hb ?_
    split_ifs <;> exact ⟨rfl, rfl, rfl, rfl⟩
  · next v1 heq =>
    have : v1 = (BeginMenu f.spaceMenu v).1 := by rw [heq]
    subst this
    exact hb

theorem DrawModeMenu_kept (f : Frame α) (v : View3D α) :
    ViewKept v (DrawModeMenu f v) := by
  have hb := BeginMenu_kept f.drawMenu v
  unfold DrawModeMenu
  split
  · next v1 heq =>
    have : v1 = (BeginMenu f.drawMenu v).1 := by rw [heq]
    subst this
    refine viewKept_trans hb ?_
    split_ifs <;> exact ⟨rfl, rfl, rfl, rfl⟩
  · next v1 heq =>
    have : v1 = (BeginMenu f.drawMenu v).1 := by rw [heq]
    subst this
    exact hb

theorem GridMenu_kept (f : Frame α) (w : World α) : WorldKept w (GridMenu f w) := by
  have hb := BeginMenu_kept f.gridMenu w.view
  unfold GridMenu
  split
  · next v1 heq =>
    have : v1 = (BeginMenu f.gridMenu w.view).1 := by rw [heq]
    subst this
    refine ⟨viewKept_trans hb ?_, rfl, rfl, rfl, rfl, rfl, rfl, rfl, rfl, rfl⟩
    dsimp only
    split_ifs <;> split <;> exact ⟨rfl, rfl, rfl, rfl⟩
  · next v1 heq =>
    have : v1 = (BeginMenu f.gridMenu w.view).1 := by rw [heq]
    subst this
    exact ⟨hb, rfl, rfl, rfl, rfl, rfl, rfl, rfl, rfl, rfl⟩

theorem CameraMenu_kept (f : Frame α) (w : World α) : WorldKept w (CameraMenu f w) := by
  have hb := BeginMenu_kept f.cameraMenu w.view
  unfold CameraMenu
  split
  · next v1 heq =>
    have : v1 = (BeginMenu f.cameraMenu w.view).1 := by rw [heq]
    subst this
    exact ⟨hb, rfl, rfl, rfl, rfl, rfl, rfl, rfl, rfl, rfl⟩
  · next v1 heq =>
    have : v1 = (BeginMenu f.cameraMenu w.view).1 := by rw [heq]
    subst this
    exact ⟨hb, rfl, rfl, rfl, rfl, rfl, rfl, rfl, rfl, rfl⟩

theorem MenuBar_kept (f : Frame α) (w : World α) : WorldKept w (MenuBar f w) := by
  unfold MenuBar
  split_ifs with hb
  · dsimp only
    refine worldKept_trans (worldKept_of_view w _ (CoordinateSpacePicker_kept f w.view)) ?_
    refine worldKept_trans (GridMenu_kept f _) ?_
    refine worldKept_trans (worldKept_of_view _ _ (DrawModeMenu_kept f _)) ?_
    exact CameraMenu_kept f _
  · exact worldKept_refl w

theorem BeforeResize_kept (f : Frame α) (w : World α) : WorldKept w (BeforeResize f w) := by
  have h := MenuBar_kept f { w with view := { w.view with popupOpen := false } }
  exact worldKept_trans (worldKept_of_view w { w.view with popupOpen := false } ⟨rfl, rfl, rfl, rfl⟩) h

theorem BeforeResize_no_menu (f : Frame α) (w : World α) (h : f.beginMenuBar = false) :
    BeforeResize f w = { w with view := { w.view with popupOpen := false } } := by
  simp [BeforeResize, MenuBar, h]

theorem Toolbar_kept (f : Frame α) (v : View3D α) :
    (Toolbar f v).width = v.width ∧ (Toolbar f v).height = v.height ∧
    (Toolbar f v).viewport = v.viewport := by
  unfold Toolbar
  obtain ⟨a1, a2, a3⟩ := ToolbarButton_kept f.btnTranslate Tool.Translate v
  obtain ⟨b1, b2, b3⟩ := ToolbarButton_kept f.btnRotate Tool.Rotate
    (ToolbarButton f.btnTranslate Tool.Translate v)
  obtain ⟨c1, c2, c3⟩ := ToolbarButton_kept f.btnScale Tool.Scale
    (ToolbarButton f.btnRotate Tool.Rotate (ToolbarButton f.btnTranslate Tool.Translate v))
  obtain ⟨d1, d2, d3⟩ := ToolbarButton_kept f.btnUniversal Tool.Universal
    (ToolbarButton f.btnScale Tool.Scale
      (ToolbarButton f.btnRotate Tool.Rotate (ToolbarButton f.btnTranslate Tool.Translate v)))
  exact ⟨d1.trans (c1.trans (b1.trans a1)), d2.trans (c2.trans (b2.trans a2)),
    d3.trans (c3.trans (b3.trans a3))⟩

theorem Presented_kept (f : Frame α) (w : World α) :
    (Presented f w).camera = w.camera ∧ (Presented f w).cursor = w.cursor ∧
    (Presented f w).cvars = w.cvars ∧ (Presented f w).picks = w.picks ∧
    (Presented f w).resizes = w.resizes :=
  ⟨rfl, rfl, rfl, rfl, rfl⟩

end Menus

/-! ## The steps of a frame -/

section Steps

variable {α : Type} [LinearOrderedField α] [FloorRing α]

theorem truncToInt_natCast (n : ℕ) : truncToInt (n : α) = n := by
  unfold truncToInt
  rw [if_pos (Nat.cast_nonneg n)]
  exact Int.floor_natCast n

theorem toUint_natCast (n : ℕ) (h : n < 4294967296) : toUint (n : α) = n := by
  unfold toUint
  rw [truncToInt_natCast]
  simp [Nat.mod_eq_of_lt h]

theorem truncToInt_eq_of_bounds (q : α) (k : ℕ) (h1 : (k : α) ≤ q) (h2 : q < (k : α) + 1) :
    truncToInt q = k := by
  unfold truncToInt
  rw [if_pos (le_trans (Nat.cast_nonneg k) h1), Int.floor_eq_iff]
  exact ⟨by simpa using h1, by simpa using h2⟩

theorem toUint_eq_of_bounds (q : α) (k : ℕ) (hk : k < 4294967296) (h1 : (k : α) ≤ q)
    (h2 : q < (k : α) + 1) : toUint q = k := by
  unfold toUint
  rw [truncToInt_eq_of_bounds q k h1 h2]
  simp [Nat.mod_eq_of_lt hk]

theorem CheckResize_cases (size : α × α) (w : World α) :
    ((size.1 ≠ (w.view.width : α) ∨ size.2 ≠ (w.view.height : α)) ∧ (size.1 = 0 ∨ size.2 = 0) ∧
      CheckResize size w = (w, false)) ∨
    ((size.1 ≠ (w.view.width : α) ∨ size.2 ≠ (w.view.height : α)) ∧ size.1 ≠ 0 ∧ size.2 ≠ 0 ∧
      CheckResize size w =
        ({ w with
            view := { w.view with width := toUint size.1, height := toUint size.2 }
            resizes := w.resizes ++ [(toUint size.1, toUint size.2)] }, true)) ∨
    (size.1 = (w.view.width : α) ∧ size.2 = (w.view.height : α) ∧ CheckResize size w = (w, true)) := by
  unfold CheckResize
  by_cases hd : size.1 ≠ (w.view.width : α) ∨ size.2 ≠ (w.view.height : α)
  · by_cases hz : size.1 = 0 ∨ size.2 = 0
    · left
      exact ⟨hd, hz, by rw [if_pos hd, if_pos hz]⟩
    · right; left
      have hz' := hz
      push_neg at hz'
      exact ⟨hd, hz'.1, hz'.2, by rw [if_pos hd, if_neg hz]⟩
  · right; right
    have hd' := hd
    push_neg at hd'
    exact ⟨hd'.1, hd'.2, by rw [if_neg hd]⟩

theorem CheckResize_kept (size : α × α) (w : World α) :
    (CheckResize size w).1.camera = w.camera ∧ (CheckResize size w).1.cursor = w.cursor ∧
    (CheckResize size w).1.cvars = w.cvars ∧ (CheckResize size w).1.picks = w.picks := by
  rcases CheckResize_cases size w with ⟨_, _, h⟩ | ⟨_, _, _, h⟩ | ⟨_, _, h⟩ <;> rw [h] <;>
    exact ⟨rfl, rfl, rfl, rfl⟩

theorem PickStep_cases (f : Frame α) (w : World α) :
    PickStep f w = w ∨
    (f.leftDown = true ∧ w.view.popupOpen = false ∧
      (f.selectionEmpty = true ∨ f.handlesMouseOver = false) ∧
      PickStep f w = { w with picks := w.picks ++
        [(toUint (f.mousePos.1 - f.cursorScreenPos.1),
          toUint (f.mousePos.2 - f.cursorScreenPos.2))] }) := by
  unfold PickStep
  split_ifs with h
  · right
    simp only [Bool.and_eq_true, Bool.or_eq_true, Bool.not_eq_true'] at h
    exact ⟨h.1.1, h.1.2, h.2, rfl⟩
  · left; rfl

theorem PickStep_blocked (f : Frame α) (w : World α) (h : w.view.popupOpen = true) :
    PickStep f w = w := by
  rcases PickStep_cases f w with h1 | ⟨_, h2, _⟩
  · exact h1
  · rw [h] at h2; cases h2

theorem CameraStep_idle (forward right : Camera α → Vec3 α) (f : Frame α) (w : World α)
    (h : f.keyCtrl = true ∨ f.windowHovered = false) : CameraStep forward right f w = w := by
  unfold CameraStep
  rw [if_neg]
  rcases h with h | h <;> simp [h]

theorem CameraStep_kept (forward right : Camera α → Vec3 α) (f : Frame α) (w : World α) :
    (CameraStep forward right f w).view = w.view ∧
    (CameraStep forward right f w).picks = w.picks ∧
    (CameraStep forward right f w).resizes = w.resizes ∧
    (CameraStep forward right f w).cvars = w.cvars := by
  unfold CameraStep
  split_ifs <;> exact ⟨rfl, rfl, rfl, rfl⟩

theorem CameraStep_pitch (forward right : Camera α → Vec3 α) (f : Frame α) (w : World α) :
    (CameraStep forward right f w).camera.pitch = w.camera.pitch ∨
    (CameraStep forward right f w).camera.pitch = (MouseLook f.motion w.cvars w.camera).pitch := by
  unfold CameraStep
  split_ifs
  · right; rfl
  · right; rfl
  · left; rfl
  · left; rfl
  · right; rfl
  · right; rfl
  · left; rfl
  · left; rfl
  · left; rfl

theorem MouseLook_pitch_mem (motion : ℤ × ℤ) (cv : ConVars α) (camera : Camera α)
    (h : cv.cl_pitchdown ≤ cv.cl_pitchup) :
    DegreesToRadians cv.cl_pitchdown ≤ (MouseLook motion cv camera).pitch ∧
    (MouseLook motion cv camera).pitch ≤ DegreesToRadians cv.cl_pitchup := by
  have hpi : (0 : α) ≤ CHISEL_PI / 180 := by unfold CHISEL_PI; positivity
  have hle : DegreesToRadians cv.cl_pitchdown ≤ DegreesToRadians cv.cl_pitchup := by
    unfold DegreesToRadians
    exact mul_le_mul_of_nonneg_right h hpi
  exact clamp_mem _ _ _ hle

theorem Draw_cases (forward right : Camera α → Vec3 α) (f : Frame α) (w : World α) :
    ((CheckResize f.avail (BeforeResize f w)).2 = false ∧
      Draw forward right f w = BeforeResize f w) ∨
    ((CheckResize f.avail (BeforeResize f w)).2 = true ∧
      Draw forward right f w = Interact forward right f (CheckResize f.avail (BeforeResize f w)).1) := by
  unfold Draw
  rcases CheckResize_cases f.avail (BeforeResize f w) with ⟨_, _, h⟩ | ⟨_, _, _, h⟩ | ⟨_, _, h⟩
  · left; simp only [h]; exact ⟨trivial, trivial⟩
  · right; simp only [h]; exact ⟨trivial, trivial⟩
  · right; simp only [h]; exact ⟨trivial, trivial⟩

theorem Interact_view (forward right : Camera α → Vec3 α) (f : Frame α) (w : World α) :
    (Interact forward right f w).view = (Presented f w).view := by
  unfold Interact
  dsimp only
  split_ifs
  · rw [(CameraStep_kept forward right f _).1]
    rcases PickStep_cases f (Presented f w) with h | ⟨_, _, _, h⟩ <;> rw [h]
  · rfl

theorem Interact_picks (forward right : Camera α → Vec3 α) (f : Frame α) (w : World α) :
    (Interact forward right f w).picks = w.picks ∨
    (f.mouseHoveringRect = true ∧ (Interact forward right f w).view.popupOpen = false ∧
      (f.selectionEmpty = true ∨ f.handlesMouseOver = false)) := by
  rw [Interact_view]
  unfold Interact
  dsimp only
  split_ifs with hh
  · rw [(CameraStep_kept forward right f _).2.1]
    rcases PickStep_cases f (Presented f w) with h | ⟨_, h2, h3, _⟩
    · left; rw [h]; rfl
    · right; exact ⟨hh, h2, h3⟩
  · left; rfl

theorem Interact_blocked (forward right : Camera α → Vec3 α) (f : Frame α) (w : World α)
    (h : (Interact forward right f w).view.popupOpen = true) :
    (Interact forward right f w).picks = w.picks := by
  rcases Interact_picks forward right f w with h1 | ⟨_, h2, _⟩
  · exact h1
  · rw [h] at h2; cases h2

theorem Interact_idle (forward right : Camera α → Vec3 α) (f : Frame α) (w : World α)
    (h : f.mouseHoveringRect = false ∨ f.keyCtrl = true ∨ f.windowHovered = false) :
    (Interact forward right f w).camera = w.camera ∧
    (Interact forward right f w).cursor = w.cursor := by
  unfold Interact
  dsimp only
  split_ifs with hh
  · rcases h with h | h
    · rw [hh] at h; cases h
    · rw [CameraStep_idle forward right f _ h]
      rcases PickStep_cases f (Presented f w) with h1 | ⟨_, _, _, h1⟩ <;> rw [h1] <;>
        exact ⟨rfl, rfl⟩
  · exact ⟨rfl, rfl⟩

theorem Interact_pitch (forward right : Camera α → Vec3 α) (f : Frame α) (w : World α) :
    (Interact forward right f w).camera.pitch = w.camera.pitch ∨
    (Interact forward right f w).camera.pitch = (MouseLook f.motion w.cvars w.camera).pitch := by
  unfold Interact
  dsimp only
  split_ifs with hh
  · have hp : (PickStep f (Presented f w)).camera = w.camera ∧
        (PickStep f (Presented f w)).cvars = w.cvars := by
      rcases PickStep_cases f (Presented f w) with h1 | ⟨_, _, _, h1⟩ <;> rw [h1] <;>
        exact ⟨rfl, rfl⟩
    have hc := CameraStep_pitch forward right f (PickStep f (Presented f w))
    rw [hp.1, hp.2] at hc
    exact hc
  · left; rfl

end Steps

/-! ## Evaluation on the concrete worlds, and the selection lemmas -/

theorem sample_before (f : Frame ℚ) (w : World ℚ) (hb : f.beginMenuBar = false)
    (hp : w.view.popupOpen = false) : BeforeResize f w = w := by
  rw [BeforeResize_no_menu f _ hb]
  cases w with
  | mk view camera cursor cvars showingGrid picks resizes =>
    cases view
    simp only at hp
    subst hp
    rfl

theorem toUint_40 : toUint (40 : ℚ) = 40 :=
  toUint_eq_of_bounds _ 40 (by norm_num) (by norm_num) (by norm_num)

theorem toUint_30 : toUint (30 : ℚ) = 30 :=
  toUint_eq_of_bounds _ 30 (by norm_num) (by norm_num) (by norm_num)

theorem toUint_100 : toUint (100 : ℚ) = 100 :=
  toUint_eq_of_bounds _ 100 (by norm_num) (by norm_num) (by norm_num)

theorem toUint_100_half : toUint (201 / 2 : ℚ) = 100 :=
  toUint_eq_of_bounds _ 100 (by norm_num) (by norm_num) (by norm_num)

theorem draw_clickFrame_picks :
    (Draw axisX axisY clickFrame (sampleWorld 512 512)).picks = [(40, 30)] := by
  have h1 : BeforeResize clickFrame (sampleWorld 512 512) = sampleWorld 512 512 :=
    sample_before _ _ rfl rfl
  have h2 : CheckResize clickFrame.avail (sampleWorld 512 512) = (sampleWorld 512 512, true) := by
    simp [CheckResize, clickFrame, sampleWorld]
  simp only [Draw, h1, h2]
  simp [Interact, Presented, Toolbar, ToolbarButton, PickStep, CameraStep, clickFrame,
    sampleWorld, toUint_40, toUint_30]

theorem selection_iterate_from (s : Selection) :
    ∀ (d i k : ℕ), i + d = s.m_selection.length →
      s.iterate (d + k) (SlotPtr.slot i) (SlotPtr.slot s.m_selection.length)
        = some (s.m_selection.drop i) := by
  intro d
  induction d with
  | zero =>
    intro i k h
    have hi : i = s.m_selection.length := by omega
    subst hi
    unfold Selection.iterate
    simp
  | succ d ih =>
    intro i k h
    have hlt : i < s.m_selection.length := by omega
    have hne : SlotPtr.slot i ≠ SlotPtr.slot s.m_selection.length := by
      intro hc
      injection hc with hc
      omega
    have hfuel : d + 1 + k = (d + k) + 1 := by omega
    rw [hfuel]
    unfold Selection.iterate
    rw [if_neg hne]
    simp only [List.get?_eq_getElem?, List.getElem?_eq_getElem hlt]
    rw [ih (i + 1) k (by omega)]
    simp

theorem registerAll_eq (objs : List SelectablePtr) :
    ∀ r : Registry, r.registerAll objs
      = (List.range' 1 objs.length).map (fun i => (r.s_lastId + i) % 4294967296) := by
  induction objs with
  | nil => intro r; rfl
  | cons obj rest ih =>
    intro r
    rw [Registry.registerAll, ih]
    simp only [Registry.Register, List.length_cons, List.range'_succ, List.map_cons]
    congr 1
    rw [show (1 + 1 : ℕ) = 1 + 1 from rfl, ← List.map_add_range' 1, List.map_map]
    apply List.map_congr_left
    intro i _
    show ((r.s_lastId + 1) % 4294967296 + i) % 4294967296 = (r.s_lastId + (1 + i)) % 4294967296
    rw [Nat.mod_add_mod, Nat.add_assoc]

theorem registerAll_small (objs : List SelectablePtr) (h : objs.length < 4294967296) :
    Registry.initial.registerAll objs = List.range' 1 objs.length := by
  rw [registerAll_eq]
  have : ∀ i ∈ List.range' 1 objs.length, (fun i => (Registry.initial.s_lastId + i) % 4294967296) i = id i := by
    intro i hi
    rw [List.mem_range'_1] at hi
    show (0 + i) % 4294967296 = i
    omega
  rw [List.map_congr_left this, List.map_id]

/-! ## The claims on the angle helpers -/

/-- C2: `AngleNormalize` only wraps around: its result differs from the input by an
integer multiple of 360; and `AngleNormalize 370 = 10`, `AngleNormalize (-185) = 175`. -/
theorem angleNormalize_wraps {α : Type} [LinearOrderedField α] [FloorRing α] :
    (∀ angle : α, ∃ k : ℤ, AngleNormalize angle = angle + 360 * (k : α)) ∧
    AngleNormalize (370 : α) = 10 ∧ AngleNormalize (-185 : α) = 175 := by
  have key : ∀ angle : α, ∃ k : ℤ, AngleNormalize angle = angle + 360 * (k : α) := by
    intro angle
    simp only [AngleNormalize]
    split_ifs with h1 h2 h3
    · exact ⟨-truncToInt (angle / 360), by unfold fmodf; push_cast; ring⟩
    · exact ⟨-truncToInt (angle / 360) - 1, by unfold fmodf; push_cast; ring⟩
    · exact ⟨-truncToInt (angle / 360) + 1, by unfold fmodf; push_cast; ring⟩
    · exact ⟨-truncToInt (angle / 360), by unfold fmodf; push_cast; ring⟩
  refine ⟨key, ?_, ?_⟩
  · have hf : fmodf (370 : α) 360 = 10 := by
      have ht : truncToInt ((370 : α) / 360) = 1 := by
        unfold truncToInt
        rw [if_pos (by positivity), Int.floor_eq_iff]
        constructor <;> norm_num
      unfold fmodf
      rw [ht]
      norm_num
    simp only [AngleNormalize, hf]
    norm_num
  · have hf : fmodf (-185 : α) 360 = -185 := fmodf_360_of_small _ (by norm_num) (by norm_num)
    simp only [AngleNormalize, hf]
    norm_num

/-- C1 fails as stated: at `-180` the remainder is `-180`, neither test fires, and
the result is `-180`, which is not strictly greater than `-180`. -/
theorem angleNormalize_neg180_not_above : ¬ ((-180 : ℚ) < AngleNormalize (-180 : ℚ)) := by
  have hf : fmodf (-180 : ℚ) 360 = -180 := fmodf_360_of_small _ (by norm_num) (by norm_num)
  simp only [AngleNormalize, hf]
  norm_num

/-- C1 (amended): for every angle, `AngleNormalize angle` lies in the closed interval
from -180 to 180, and it is -180 exactly when the truncated remainder
`fmodf angle 360` is -180. -/
theorem angleNormalize_range {α : Type} [LinearOrderedField α] [FloorRing α] (angle : α) :
    -180 ≤ AngleNormalize angle ∧ AngleNormalize angle ≤ 180 ∧
    (AngleNormalize angle = -180 ↔ fmodf angle 360 = -180) := by
  obtain ⟨h1, h2⟩ := fmodf_360_abs angle
  simp only [AngleNormalize]
  split_ifs with ha hb hc
  · exfalso; linarith
  · refine ⟨by linarith, by linarith, ?_⟩
    constructor <;> intro h <;> linarith
  · refine ⟨by linarith, by linarith, ?_⟩
    constructor <;> intro h <;> linarith
  · push_neg at ha hc
    exact ⟨hc, ha, Iff.rfl⟩

/-- C3: an angle already in the range, above -180 and at most 180, is returned
unchanged by `AngleNormalize`. -/
theorem angleNormalize_in_range {α : Type} [LinearOrderedField α] [FloorRing α] (x : α)
    (h1 : -180 < x) (h2 : x ≤ 180) : AngleNormalize x = x := by
  have hf : fmodf x 360 = x := fmodf_360_of_small x (by linarith) (by linarith)
  simp only [AngleNormalize, hf]
  rw [if_neg (not_lt.mpr h2), if_neg (not_lt.mpr h1.le)]

/-- C3 at the angle 90. -/
theorem angleNormalize_in_range_witness :
    (-180 : ℚ) < 90 ∧ (90 : ℚ) ≤ 180 ∧ AngleNormalize (90 : ℚ) = 90 :=
  ⟨by norm_num, by norm_num, angleNormalize_in_range 90 (by norm_num) (by norm_num)⟩

/-! ## The claims on the viewport controller, the selection and the identifiers -/

/-- C4 fails as stated: with the limits swapped (`cl_pitchdown = 89`, `cl_pitchup = -89`)
the interval from `min` to `max` is empty, and the pitch stored by a frame that runs
the mouse look update is not within it. -/
theorem draw_pitch_swapped_limits :
    (Draw axisX axisY lookFrame swappedPitchWorld).camera.pitch ≠ swappedPitchWorld.camera.pitch ∧
    ¬ (DegreesToRadians swappedPitchWorld.cvars.cl_pitchdown
        ≤ (Draw axisX axisY lookFrame swappedPitchWorld).camera.pitch ∧
      (Draw axisX axisY lookFrame swappedPitchWorld).camera.pitch
        ≤ DegreesToRadians swappedPitchWorld.cvars.cl_pitchup) := by
  have h1 : BeforeResize lookFrame swappedPitchWorld = swappedPitchWorld :=
    sample_before _ _ rfl rfl
  have h2 : CheckResize lookFrame.avail swappedPitchWorld = (swappedPitchWorld, true) := by
    simp [CheckResize, lookFrame, swappedPitchWorld, sampleWorld]
  have h3 : (Draw axisX axisY lookFrame swappedPitchWorld).camera.pitch
      = DegreesToRadians 89 := by
    simp only [Draw, h1, h2]
    simp [Interact, Presented, PickStep, CameraStep, MouseLook, clamp, lookFrame,
      swappedPitchWorld, sampleWorld, DegreesToRadians, CHISEL_PI]
  rw [h3]
  constructor
  · norm_num [swappedPitchWorld, sampleWorld, DegreesToRadians, CHISEL_PI]
  · norm_num [swappedPitchWorld, sampleWorld, DegreesToRadians, CHISEL_PI]

/-- C4 (amended): when `cl_pitchdown ≤ cl_pitchup`, the pitch that the mouse look update
stores lies within `[DegreesToRadians cl_pitchdown, DegreesToRadians cl_pitchup]`, for
every previous pitch, mouse motion, sensitivity and `m_pitch`; and after a frame of
`Draw` the camera pitch is either the pitch before the frame or within that interval. -/
theorem draw_pitch_clamped {α : Type} [LinearOrderedField α] [FloorRing α]
    (forward right : Camera α → Vec3 α) (f : Frame α) (w : World α) (motion : ℤ × ℤ)
    (cv : ConVars α) (camera : Camera α)
    (hcv : cv.cl_pitchdown ≤ cv.cl_pitchup)
    (hw : w.cvars.cl_pitchdown ≤ w.cvars.cl_pitchup) :
    (DegreesToRadians cv.cl_pitchdown ≤ (MouseLook motion cv camera).pitch ∧
      (MouseLook motion cv camera).pitch ≤ DegreesToRadians cv.cl_pitchup) ∧
    ((Draw forward right f w).camera.pitch = w.camera.pitch ∨
      (DegreesToRadians w.cvars.cl_pitchdown ≤ (Draw forward right f w).camera.pitch ∧
        (Draw forward right f w).camera.pitch ≤ DegreesToRadians w.cvars.cl_pitchup)) := by
  refine ⟨MouseLook_pitch_mem motion cv camera hcv, ?_⟩
  have hk := BeforeResize_kept f w
  rcases Draw_cases forward right f w with ⟨_, h⟩ | ⟨_, h⟩
  · left
    rw [h]
    exact hk.pitch
  · rw [h]
    obtain ⟨c1, _, c3, _⟩ := CheckResize_kept f.avail (BeforeResize f w)
    rcases Interact_pitch forward right f (CheckResize f.avail (BeforeResize f w)).1 with hp | hp
    · left
      rw [hp, c1]
      exact hk.pitch
    · right
      rw [hp, c1, c3, ← hk.pitchdown, ← hk.pitchup]
      apply MouseLook_pitch_mem
      rw [hk.pitchdown, hk.pitchup]
      exact hw

/-- The amended C4 at the sample world, whose limits are -89 and 89, on a frame that looks around. -/
theorem draw_pitch_clamped_witness :
    (DegreesToRadians (sampleWorld 512 512).cvars.cl_pitchdown
        ≤ (MouseLook (0, 10) (sampleWorld 512 512).cvars (sampleWorld 512 512).camera).pitch ∧
      (MouseLook (0, 10) (sampleWorld 512 512).cvars (sampleWorld 512 512).camera).pitch
        ≤ DegreesToRadians (sampleWorld 512 512).cvars.cl_pitchup) ∧
    ((Draw axisX axisY lookFrame (sampleWorld 512 512)).camera.pitch
        = (sampleWorld 512 512).camera.pitch ∨
      (DegreesToRadians (sampleWorld 512 512).cvars.cl_pitchdown
          ≤ (Draw axisX axisY lookFrame (sampleWorld 512 512)).camera.pitch ∧
        (Draw axisX axisY lookFrame (sampleWorld 512 512)).camera.pitch
          ≤ DegreesToRadians (sampleWorld 512 512).cvars.cl_pitchup)) :=
  draw_pitch_clamped axisX axisY lookFrame (sampleWorld 512 512) (0, 10)
    (sampleWorld 512 512).cvars (sampleWorld 512 512).camera
    (by norm_num [sampleWorld]) (by norm_num [sampleWorld])

/-- C5: in a frame of `Draw`, `Tools.PickObject` is called only when the pointer is
within the viewport rectangle of this frame, `popupOpen` is false, and the selection is
empty or the pointer is not over a handle; in every other frame the log of picks is
as it was. -/
theorem draw_pick_only_when {α : Type} [LinearOrderedField α] [FloorRing α]
    (forward right : Camera α → Vec3 α) (f : Frame α) (w : World α)
    (h : (Draw forward right f w).picks ≠ w.picks) :
    f.mouseHoveringRect = true ∧ (Draw forward right f w).view.popupOpen = false ∧
    (f.selectionEmpty = true ∨ f.handlesMouseOver = false) := by
  have hk := BeforeResize_kept f w
  rcases Draw_cases forward right f w with ⟨_, hd⟩ | ⟨_, hd⟩
  · exfalso
    apply h
    rw [hd]
    exact hk.picks
  · rw [hd] at h ⊢
    rcases Interact_picks forward right f (CheckResize f.avail (BeforeResize f w)).1 with hp | hp
    · exfalso
      apply h
      rw [hp, (CheckResize_kept f.avail (BeforeResize f w)).2.2.2]
      exact hk.picks
    · exact hp

/-- C5 at a frame that clicks inside the viewport with nothing selected: the pick is made and the three conditions hold. -/
theorem draw_pick_only_when_witness :
    (Draw axisX axisY clickFrame (sampleWorld 512 512)).picks ≠ (sampleWorld 512 512).picks ∧
    clickFrame.mouseHoveringRect = true ∧
    (Draw axisX axisY clickFrame (sampleWorld 512 512)).view.popupOpen = false ∧
    (clickFrame.selectionEmpty = true ∨ clickFrame.handlesMouseOver = false) :=
  have h : (Draw axisX axisY clickFrame (sampleWorld 512 512)).picks ≠ (sampleWorld 512 512).picks := by
    rw [draw_clickFrame_picks]
    simp [sampleWorld]
  ⟨h, draw_pick_only_when axisX axisY clickFrame (sampleWorld 512 512) h⟩

/-- C6 fails as stated, at three frames whose available area is `(0, 0)`.
(1) From a world whose `popupOpen` is true, the frame of a collapsed window returns
with `popupOpen` false: the flag is reset at the top of `Draw`.
(2) The menu bar runs before the resize check: a click on the Depth item changes
`drawMode`.
(3) When the stored width and height are already 0, `CheckResize` sees no change and
returns true: the frame picks and updates the camera pitch. -/
theorem draw_zero_area_touches_state :
    (hoveredWorld.view.popupOpen = true ∧
      (Draw axisX axisY collapsedFrame hoveredWorld).view.popupOpen = false) ∧
    ((sampleWorld 512 512).view.drawMode = DrawMode.Shaded ∧
      (Draw axisX axisY zeroAreaMenuFrame (sampleWorld 512 512)).view.drawMode = DrawMode.Depth) ∧
    ((Draw axisX axisY zeroAreaClickFrame (sampleWorld 0 0)).picks = [(0, 0)] ∧
      (sampleWorld 0 0).picks = [] ∧
      (Draw axisX axisY zeroAreaClickFrame (sampleWorld 0 0)).camera.pitch
        ≠ (sampleWorld 0 0).camera.pitch) := by
  have h0 : toUint (0 : ℚ) = 0 :=
    toUint_eq_of_bounds _ 0 (by norm_num) (by norm_num) (by norm_num)
  refine ⟨⟨rfl, ?_⟩, ⟨rfl, ?_⟩, ?_, rfl, ?_⟩
  · have h1 : BeforeResize collapsedFrame hoveredWorld = sampleWorld 512 512 := by
      rw [BeforeResize_no_menu _ _ rfl]
      rfl
    have h2 : CheckResize collapsedFrame.avail (sampleWorld 512 512)
        = (sampleWorld 512 512, false) := by
      simp [CheckResize, collapsedFrame, sampleWorld]
    simp only [Draw, h1, h2]
    rfl
  · have h1 : BeforeResize zeroAreaMenuFrame (sampleWorld 512 512)
        = { sampleWorld 512 512 with
            view := { (sampleWorld 512 512).view with drawMode := DrawMode.Depth } } := by
      simp [BeforeResize, MenuBar, CoordinateSpacePicker, GridMenu, DrawModeMenu, CameraMenu,
        BeginMenu, zeroAreaMenuFrame, sampleWorld]
    have h2 : ∀ w : World ℚ, w.view.width = 512 → w.view.height = 512 →
        CheckResize zeroAreaMenuFrame.avail w = (w, false) := by
      intro w hw hh
      simp [CheckResize, zeroAreaMenuFrame, hw, hh]
    simp only [Draw, h1]
    rw [h2 _ rfl rfl]
  · have h1 : BeforeResize zeroAreaClickFrame (sampleWorld 0 0) = sampleWorld 0 0 :=
      sample_before _ _ rfl rfl
    have h2 : CheckResize zeroAreaClickFrame.avail (sampleWorld 0 0) = (sampleWorld 0 0, true) := by
      simp [CheckResize, zeroAreaClickFrame, sampleWorld]
    simp only [Draw, h1, h2]
    simp [Interact, Presented, Toolbar, ToolbarButton, PickStep, CameraStep, zeroAreaClickFrame,
      sampleWorld, h0]
  · have h1 : BeforeResize zeroAreaClickFrame (sampleWorld 0 0) = sampleWorld 0 0 :=
      sample_before _ _ rfl rfl
    have h2 : CheckResize zeroAreaClickFrame.avail (sampleWorld 0 0) = (sampleWorld 0 0, true) := by
      simp [CheckResize, zeroAreaClickFrame, sampleWorld]
    simp only [Draw, h1, h2]
    simp [Interact, Presented, Toolbar, ToolbarButton, PickStep, CameraStep, MouseLook, clamp,
      zeroAreaClickFrame, sampleWorld, DegreesToRadians, CHISEL_PI]
    norm_num

/-- C6 (amended): in a frame whose available area is zero in a dimension and differs
from the stored width or height, `Draw` stops at the resize check: it makes no pick and
no resize, leaves camera yaw, pitch and position and the cursor as they were, and
leaves `activeTool`, the viewport rectangle and the stored width and height unchanged.
The frame still resets `popupOpen` and runs the menu bar before that check; when no
menu bar is shown the world after the frame is the world before it with `popupOpen`
false. -/
theorem draw_zero_area {α : Type} [LinearOrderedField α] [FloorRing α]
    (forward right : Camera α → Vec3 α) (f : Frame α) (w : World α)
    (hzero : f.avail.1 = 0 ∨ f.avail.2 = 0)
    (hdiff : f.avail.1 ≠ (w.view.width : α) ∨ f.avail.2 ≠ (w.view.height : α)) :
    Draw forward right f w = BeforeResize f w ∧
    (Draw forward right f w).picks = w.picks ∧
    (Draw forward right f w).resizes = w.resizes ∧
    (Draw forward right f w).camera.yaw = w.camera.yaw ∧
    (Draw forward right f w).camera.pitch = w.camera.pitch ∧
    (Draw forward right f w).camera.position = w.camera.position ∧
    (Draw forward right f w).cursor = w.cursor ∧
    (Draw forward right f w).view.activeTool = w.view.activeTool ∧
    (Draw forward right f w).view.viewport = w.view.viewport ∧
    (Draw forward right f w).view.width = w.view.width ∧
    (Draw forward right f w).view.height = w.view.height ∧
    (f.beginMenuBar = false →
      Draw forward right f w = { w with view := { w.view with popupOpen := false } }) := by
  have hk := BeforeResize_kept f w
  have hd : Draw forward right f w = BeforeResize f w := by
    rcases CheckResize_cases f.avail (BeforeResize f w) with
      ⟨_, _, h⟩ | ⟨_, h1, h2, _⟩ | ⟨h1, h2, _⟩
    · simp only [Draw, h]
    · exfalso
      rcases hzero with hz | hz
      · exact h1 hz
      · exact h2 hz
    · exfalso
      rw [hk.view.width] at h1
      rw [hk.view.height] at h2
      rcases hdiff with hz | hz
      · exact hz h1
      · exact hz h2
  rw [hd]
  exact ⟨rfl, hk.picks, hk.resizes, hk.yaw, hk.pitch, hk.position, hk.cursor,
    hk.view.activeTool, hk.view.viewport, hk.view.width, hk.view.height,
    fun hb => BeforeResize_no_menu f w hb⟩

/-- The amended C6 at the frame of a collapsed window, with stored size 512 by 512. -/
theorem draw_zero_area_witness :
    Draw axisX axisY collapsedFrame hoveredWorld = BeforeResize collapsedFrame hoveredWorld ∧
    (Draw axisX axisY collapsedFrame hoveredWorld).picks = hoveredWorld.picks ∧
    (Draw axisX axisY collapsedFrame hoveredWorld).resizes = hoveredWorld.resizes ∧
    (Draw axisX axisY collapsedFrame hoveredWorld).camera.yaw = hoveredWorld.camera.yaw ∧
    (Draw axisX axisY collapsedFrame hoveredWorld).camera.pitch = hoveredWorld.camera.pitch ∧
    (Draw axisX axisY collapsedFrame hoveredWorld).camera.position
      = hoveredWorld.camera.position ∧
    (Draw axisX axisY collapsedFrame hoveredWorld).cursor = hoveredWorld.cursor ∧
    (Draw axisX axisY collapsedFrame hoveredWorld).view.activeTool
      = hoveredWorld.view.activeTool ∧
    (Draw axisX axisY collapsedFrame hoveredWorld).view.viewport = hoveredWorld.view.viewport ∧
    (Draw axisX axisY collapsedFrame hoveredWorld).view.width = hoveredWorld.view.width ∧
    (Draw axisX axisY collapsedFrame hoveredWorld).view.height = hoveredWorld.view.height ∧
    (collapsedFrame.beginMenuBar = false →
      Draw axisX axisY collapsedFrame hoveredWorld
        = { hoveredWorld with view := { hoveredWorld.view with popupOpen := false } }) :=
  draw_zero_area axisX axisY collapsedFrame hoveredWorld (Or.inl rfl)
    (Or.inl (by norm_num [collapsedFrame, hoveredWorld, sampleWorld]))

/-- C9 fails as stated: in a frame where the pointer hovers a toolbar button inside the
viewport, `popupOpen` is set, and still the press of the right button locks and hides
the cursor and the mouse motion changes the camera pitch. -/
theorem draw_blocked_camera_moves :
    (Draw axisX axisY toolbarHoverLookFrame (sampleWorld 512 512)).view.popupOpen = true ∧
    (Draw axisX axisY toolbarHoverLookFrame (sampleWorld 512 512)).cursor
      = { mode := CursorMode.Locked, visible := false } ∧
    (sampleWorld 512 512).cursor = { mode := CursorMode.Normal, visible := true } ∧
    (Draw axisX axisY toolbarHoverLookFrame (sampleWorld 512 512)).camera.pitch
      ≠ (sampleWorld 512 512).camera.pitch := by
  have h1 : BeforeResize toolbarHoverLookFrame (sampleWorld 512 512) = sampleWorld 512 512 :=
    sample_before _ _ rfl rfl
  have h2 : CheckResize toolbarHoverLookFrame.avail (sampleWorld 512 512)
      = (sampleWorld 512 512, true) := by
    simp [CheckResize, toolbarHoverLookFrame, sampleWorld]
  refine ⟨?_, ?_, rfl, ?_⟩
  · simp only [Draw, h1, h2]
    simp [Interact, Presented, Toolbar, ToolbarButton, PickStep, CameraStep,
      toolbarHoverLookFrame, sampleWorld]
  · simp only [Draw, h1, h2]
    simp [Interact, Presented, Toolbar, ToolbarButton, PickStep, CameraStep,
      toolbarHoverLookFrame, sampleWorld]
  · simp only [Draw, h1, h2]
    simp [Interact, Presented, Toolbar, ToolbarButton, PickStep, CameraStep, MouseLook, clamp,
      toolbarHoverLookFrame, sampleWorld, DegreesToRadians, CHISEL_PI]
    norm_num

/-- C9 (amended): in a frame of `Draw` in which `popupOpen` is set, no pick is made.
The camera navigation does not test `popupOpen`: camera yaw, pitch and position and
the cursor mode and visibility stay unchanged when the pointer is outside the viewport
rectangle, or Ctrl is held, or the window is not hovered. -/
theorem draw_blocked {α : Type} [LinearOrderedField α] [FloorRing α]
    (forward right : Camera α → Vec3 α) (f : Frame α) (w : World α)
    (h : (Draw forward right f w).view.popupOpen = true) :
    (Draw forward right f w).picks = w.picks ∧
    ((f.mouseHoveringRect = false ∨ f.keyCtrl = true ∨ f.windowHovered = false) →
      (Draw forward right f w).camera.yaw = w.camera.yaw ∧
      (Draw forward right f w).camera.pitch = w.camera.pitch ∧
      (Draw forward right f w).camera.position = w.camera.position ∧
      (Draw forward right f w).cursor = w.cursor) := by
  have hk := BeforeResize_kept f w
  rcases Draw_cases forward right f w with ⟨_, hd⟩ | ⟨_, hd⟩
  · rw [hd]
    exact ⟨hk.picks, fun _ => ⟨hk.yaw, hk.pitch, hk.position, hk.cursor⟩⟩
  · rw [hd] at h ⊢
    obtain ⟨c1, c2, _, c4⟩ := CheckResize_kept f.avail (BeforeResize f w)
    constructor
    · rw [Interact_blocked forward right f _ h, c4]
      exact hk.picks
    · intro hidle
      obtain ⟨i1, i2⟩ := Interact_idle forward right f (CheckResize f.avail (BeforeResize f w)).1 hidle
      rw [i1, i2, c1, c2]
      exact ⟨hk.yaw, hk.pitch, hk.position, hk.cursor⟩

/-- The amended C9 at the frame that hovers a toolbar button: `popupOpen` is set and no pick is made. -/
theorem draw_blocked_witness :
    (Draw axisX axisY toolbarHoverLookFrame (sampleWorld 512 512)).picks
      = (sampleWorld 512 512).picks ∧
    ((toolbarHoverLookFrame.mouseHoveringRect = false ∨ toolbarHoverLookFrame.keyCtrl = true ∨
        toolbarHoverLookFrame.windowHovered = false) →
      (Draw axisX axisY toolbarHoverLookFrame (sampleWorld 512 512)).camera.yaw
        = (sampleWorld 512 512).camera.yaw ∧
      (Draw axisX axisY toolbarHoverLookFrame (sampleWorld 512 512)).camera.pitch
        = (sampleWorld 512 512).camera.pitch ∧
      (Draw axisX axisY toolbarHoverLookFrame (sampleWorld 512 512)).camera.position
        = (sampleWorld 512 512).camera.position ∧
      (Draw axisX axisY toolbarHoverLookFrame (sampleWorld 512 512)).cursor
        = (sampleWorld 512 512).cursor) :=
  draw_blocked axisX axisY toolbarHoverLookFrame (sampleWorld 512 512)
    (by
      have h1 : BeforeResize toolbarHoverLookFrame (sampleWorld 512 512) = sampleWorld 512 512 :=
        sample_before _ _ rfl rfl
      have h2 : CheckResize toolbarHoverLookFrame.avail (sampleWorld 512 512)
          = (sampleWorld 512 512, true) := by
        simp [CheckResize, toolbarHoverLookFrame, sampleWorld]
      simp only [Draw, h1, h2]
      simp [Interact, Presented, Toolbar, ToolbarButton, PickStep, CameraStep,
        toolbarHoverLookFrame, sampleWorld])

/-- C10 fails as stated: for the available size `(100.5, 100)` the stored width becomes
`uint(100.5) = 100`, which is not the available width, and the next `CheckResize` with
the same size sees a change and calls `Tools.ResizeViewport` again. -/
theorem checkResize_fraction_resizes_again :
    (CheckResize ((201 / 2 : ℚ), (100 : ℚ)) (sampleWorld 512 512)).1.view.width = 100 ∧
    (((CheckResize ((201 / 2 : ℚ), (100 : ℚ)) (sampleWorld 512 512)).1.view.width : ℕ) : ℚ)
      ≠ 201 / 2 ∧
    (CheckResize ((201 / 2 : ℚ), (100 : ℚ))
        (CheckResize ((201 / 2 : ℚ), (100 : ℚ)) (sampleWorld 512 512)).1).1.resizes
      = [(100, 100), (100, 100)] := by
  have h1 : CheckResize ((201 / 2 : ℚ), (100 : ℚ)) (sampleWorld 512 512)
      = ({ sampleWorld 512 512 with
            view := { (sampleWorld 512 512).view with width := 100, height := 100 }
            resizes := [(100, 100)] }, true) := by
    simp [CheckResize, sampleWorld, toUint_100, toUint_100_half]
  rw [h1]
  refine ⟨rfl, by norm_num, ?_⟩
  simp [CheckResize, sampleWorld, toUint_100, toUint_100_half]
  norm_num

/-- C10 (amended): when the available size differs from the stored width or height and
is nonzero in both dimensions, `CheckResize` returns true, calls `Tools.ResizeViewport`
once with `uint(size.x)` and `uint(size.y)` and stores these two values.  When the
available size is a pair of whole numbers below `2 ^ 32`, the stored width and height
equal it, and a following `CheckResize` with the same size changes nothing and does
not resize again. -/
theorem checkResize_stores_size {α : Type} [LinearOrderedField α] [FloorRing α]
    (size : α × α) (w : World α)
    (hdiff : size.1 ≠ (w.view.width : α) ∨ size.2 ≠ (w.view.height : α))
    (hx : size.1 ≠ 0) (hy : size.2 ≠ 0) :
    (CheckResize size w).2 = true ∧
    (CheckResize size w).1.resizes = w.resizes ++ [(toUint size.1, toUint size.2)] ∧
    (CheckResize size w).1.view.width = toUint size.1 ∧
    (CheckResize size w).1.view.height = toUint size.2 ∧
    (∀ n m : ℕ, n < 4294967296 → m < 4294967296 → size = ((n : α), (m : α)) →
      (CheckResize size w).1.view.width = n ∧ (CheckResize size w).1.view.height = m ∧
      CheckResize size (CheckResize size w).1 = ((CheckResize size w).1, true)) := by
  rcases CheckResize_cases size w with ⟨_, hz, _⟩ | ⟨_, _, _, h⟩ | ⟨h1, h2, _⟩
  · exfalso
    rcases hz with hz | hz
    · exact hx hz
    · exact hy hz
  · rw [h]
    refine ⟨rfl, rfl, rfl, rfl, ?_⟩
    intro n m hn hm hs
    subst hs
    have e1 : toUint (n : α) = n := toUint_natCast n hn
    have e2 : toUint (m : α) = m := toUint_natCast m hm
    refine ⟨e1, e2, ?_⟩
    unfold CheckResize
    rw [if_neg]
    simp only [e1, e2]
    push_neg
    exact ⟨rfl, rfl⟩
  · exfalso
    rcases hdiff with hd | hd
    · exact hd h1
    · exact hd h2

/-- The amended C10 at a change of the available size from 512 by 512 to 640 by 480. -/
theorem checkResize_stores_size_witness :
    (CheckResize ((640 : ℚ), (480 : ℚ)) (sampleWorld 512 512)).2 = true ∧
    (CheckResize ((640 : ℚ), (480 : ℚ)) (sampleWorld 512 512)).1.resizes
      = (sampleWorld 512 512).resizes ++ [(toUint (640 : ℚ), toUint (480 : ℚ))] ∧
    (CheckResize ((640 : ℚ), (480 : ℚ)) (sampleWorld 512 512)).1.view.width
      = toUint (640 : ℚ) ∧
    (CheckResize ((640 : ℚ), (480 : ℚ)) (sampleWorld 512 512)).1.view.height
      = toUint (480 : ℚ) ∧
    (∀ n m : ℕ, n < 4294967296 → m < 4294967296 → ((640 : ℚ), (480 : ℚ)) = ((n : ℚ), (m : ℚ)) →
      (CheckResize ((640 : ℚ), (480 : ℚ)) (sampleWorld 512 512)).1.view.width = n ∧
      (CheckResize ((640 : ℚ), (480 : ℚ)) (sampleWorld 512 512)).1.view.height = m ∧
      CheckResize ((640 : ℚ), (480 : ℚ))
          (CheckResize ((640 : ℚ), (480 : ℚ)) (sampleWorld 512 512)).1
        = ((CheckResize ((640 : ℚ), (480 : ℚ)) (sampleWorld 512 512)).1, true)) :=
  checkResize_stores_size ((640 : ℚ), (480 : ℚ)) (sampleWorld 512 512)
    (Or.inl (by norm_num [sampleWorld])) (by norm_num) (by norm_num)

/-- C7: iterating from `begin()` to `end()` visits exactly the members of `m_selection`,
each once and in sequence order, whenever the loop is given at least as many steps as
there are members; for the empty selection `begin()` equals `end()` and nothing is
visited; and a second iteration of the same selection yields the same sequence. -/
theorem selection_iteration (s : Selection) (k k' : ℕ) :
    s.iterate (s.m_selection.length + k) s.begin s.end_ = some s.m_selection ∧
    (Selection.mk []).begin = (Selection.mk []).end_ ∧
    (Selection.mk []).iterate 0 (Selection.mk []).begin (Selection.mk []).end_ = some [] ∧
    s.iterate (s.m_selection.length + k') s.begin s.end_
      = s.iterate (s.m_selection.length + k) s.begin s.end_ := by
  have key : ∀ j : ℕ, s.iterate (s.m_selection.length + j) s.begin s.end_ = some s.m_selection := by
    intro j
    unfold Selection.begin Selection.end_
    by_cases hpos : s.m_selection.length > 0
    · rw [if_pos hpos, if_pos hpos]
      have hlen : s.m_selection.length - 1 + 1 = s.m_selection.length := by omega
      rw [hlen]
      have := selection_iterate_from s s.m_selection.length 0 j (by omega)
      simpa using this
    · rw [if_neg hpos, if_neg hpos]
      have hnil : s.m_selection = [] := List.length_eq_zero.mp (by omega)
      unfold Selection.iterate
      simp [hnil]
  refine ⟨key k, rfl, ?_, ?_⟩
  · unfold Selection.iterate
    simp [Selection.begin, Selection.end_]
  · rw [key k, key k']

/-- C8 fails as stated: the counter is a `uint32_t`, and the construction number
`2 ^ 32` wraps it around, so identifier 0 is assigned. -/
theorem register_ids_wrap_to_zero :
    (0 : ℕ) ∈ Registry.initial.registerAll (List.replicate 4294967296 0) := by
  rw [registerAll_eq, List.length_replicate, List.mem_map]
  refine ⟨4294967296, ?_, ?_⟩
  · rw [List.mem_range'_1]
    omega
  · show (0 + 4294967296) % 4294967296 = 0
    rfl

/-- C8 (amended): for every sequence of fewer than `2 ^ 32` constructions, the assigned
identifiers are 1, 2, 3, ... in construction order: strictly increasing, never zero,
and no two equal. -/
theorem register_ids_increasing (objs : List SelectablePtr) (h : objs.length < 4294967296) :
    Registry.initial.registerAll objs = List.range' 1 objs.length ∧
    List.Pairwise (fun a b => a < b) (Registry.initial.registerAll objs) ∧
    (∀ n ∈ Registry.initial.registerAll objs, n ≠ 0) ∧
    (Registry.initial.registerAll objs).Nodup := by
  rw [registerAll_small objs h]
  refine ⟨rfl, ?_, ?_, List.nodup_range' 1 objs.length⟩
  · exact List.pairwise_lt_range' 1 objs.length
  · intro n hn
    rw [List.mem_range'_1] at hn
    exact Nat.pos_iff_ne_zero.mp hn.1

/-- The amended C8 at three constructions, which get the identifiers 1, 2, 3. -/
theorem register_ids_increasing_witness :
    Registry.initial.registerAll [7, 8, 9] = List.range' 1 [7, 8, 9].length ∧
    List.Pairwise (fun a b => a < b) (Registry.initial.registerAll [7, 8, 9]) ∧
    (∀ n ∈ Registry.initial.registerAll [7, 8, 9], n ≠ 0) ∧
    (Registry.initial.registerAll [7, 8, 9]).Nodup :=
  register_ids_increasing [7, 8, 9] (by decide)

end Chisel
